import Mathlib

/-!
Shallow embedding of `src/qr_generator.py` (AR Surgery QR Generator, v7.0).
Strings are modelled at the character-list level so that Python's slicing,
`startswith` and `strip` have direct, executable counterparts.
-/

namespace ARQr

/-- Python `s.startswith(p)`: `p` is a prefix of the character sequence of `s`. -/
def pyStartswith (s p : String) : Bool :=
  p.data.isPrefixOf s.data

/-- Python `s.strip()`: drop leading and trailing whitespace characters. -/
def pyStrip (s : String) : String :=
  ⟨((s.data.dropWhile Char.isWhitespace).reverse.dropWhile Char.isWhitespace).reverse⟩

/-- Python truthiness of an optional string: `None` and `""` are falsy. -/
def pyTruthy : Option String → Bool
  | none => false
  | some s => !(s == "")

/-- Modelled from the spec: the Payload Validator component (`validate(text) -> bool`)
described in the spec has no implementation in the source file; per the spec it
returns true iff the trimmed string is non-empty and begins with `http://` or
`https://`, with no side effects. -/
def validate (text : String) : Bool :=
  let t := pyStrip text
  !(t == "") && (pyStartswith t "http://" || pyStartswith t "https://")

/-- QR error-correction levels (qrcode.constants.ERROR_CORRECT_*). -/
inductive ECLevel
  | L | M | Q | H
deriving DecidableEq, Repr

/-- Arguments given to the `qrcode.QRCode(...)` constructor. -/
structure QRCodeParams where
  version : Nat
  errorCorrection : ECLevel
  boxSize : Nat
  border : Nat
deriving DecidableEq, Repr

/-- The constructor arguments at lines 42-47 of `create_qr_code`:
`version=1, error_correction=ERROR_CORRECT_H, box_size=10, border=4`. -/
def qrParams : QRCodeParams :=
  { version := 1, errorCorrection := ECLevel.H, boxSize := 10, border := 4 }

/-- The `fit` keyword passed to `qr.make(fit=True)` at line 50: the encoder is asked
to pick the minimal symbol version that fits the payload. -/
def makeFit : Bool := true

/-- Configuration profiles named by the spec. -/
inductive Profile
  | lightweight | presentation
deriving DecidableEq, Repr

/-- Modelled from the spec: the error-correction level per configuration profile
(M for the lightweight profile, H for the presentation profile). Only the
presentation-profile source variant is present in the repository. -/
def profileECLevel : Profile → ECLevel
  | Profile.lightweight => ECLevel.M
  | Profile.presentation => ECLevel.H

/-- One `cv2.putText` call on the composite canvas: the text and its (x, y) anchor. -/
structure TextDraw where
  text : String
  x : Int
  y : Int
deriving DecidableEq, Repr

/-- `canvas_height = 900` (line 76). -/
def canvasHeight : Nat := 900

/-- `canvas_width = 700` (line 77). -/
def canvasWidth : Nat := 700

/-- `url_display = url[:50] + "..." if len(url) > 50 else url` (line 99). -/
def urlDisplay (url : String) : String :=
  if url.length > 50 then (⟨url.data.take 50⟩ : String) ++ "..." else url

/-- The `instructions` list literal (lines 104-125). -/
def instructions : List String :=
  ["📱 MOBILE ACCESS INSTRUCTIONS:",
   "",
   "1. Open your phone camera or Google Lens",
   "2. Point camera at this QR code",
   "3. Tap the notification/link that appears",
   "4. Click \x27START SURGERY\x27 button",
   "5. Experience immersive AR surgery training!",
   "",
   "🏥 FEATURES INCLUDED:",
   "",
   "• Real-time surgery step progression",
   "• Patient vitals monitoring simulation",
   "• Surgical instrument identification",
   "• Critical safety alerts and warnings",
   "• Educational learning objectives",
   "• Mobile-optimized AR interface",
   "",
   "🎓 Perfect for medical students & residents",
   "⚡ No app installation required",
   "🌐 Works on all smartphones"]

/-- The instruction-rendering loop (lines 127-145): blank entries are skipped,
`y_pos = 600 + i * 22`, and a line is drawn at `(30, y_pos)` only when
`y_pos < canvas_height - 20`. -/
def instructionDraws : List TextDraw :=
  instructions.enum.filterMap fun p =>
    if p.2 == "" then none
    else if 600 + p.1 * 22 < canvasHeight - 20 then
      some ⟨p.2, 30, (600 + p.1 * 22 : Nat)⟩
    else none

/-- `create_enhanced_qr_display` (lines 72-162), abstracted to the sequence of
text draws it performs. `drawFails` models some cv2/drawing call raising inside
the `try` block; the `except` handler returns `None` (lines 160-162). -/
def createEnhancedQrDisplay (drawFails : Bool) (url ts : String) :
    Option (List TextDraw) :=
  if drawFails then none
  else some
    ([⟨"AR SURGERY TRAINING", 130, 80⟩,
      ⟨"QR CODE ACCESS", 200, 120⟩,
      ⟨"Scan with Google Lens or Camera", 150, 150⟩,
      ⟨"URL: " ++ urlDisplay url, 50, 560⟩]
     ++ instructionDraws
     ++ [⟨"Generated: " ++ ts, 30, (canvasHeight : Int) - 30⟩])

/-- Outcome of one `create_qr_code` call: the encoder invocation, the returned
pair `(enhanced_qr, filename)`, and the files written to disk, in order. -/
structure GenResult where
  encParams : QRCodeParams
  encFit : Bool
  display : Option (List TextDraw)
  retFilename : Option String
  writes : List String
deriving DecidableEq, Repr

/-- `create_qr_code` (lines 36-70). The QR symbol is encoded with `qrParams` and
`fit=True`; then `create_enhanced_qr_display` runs (line 59); then
`qr_img.save(filename)` writes the raw QR (line 62); then
`cv2.imwrite("enhanced_" + filename, enhanced_qr)` (line 63) raises when
`enhanced_qr` is `None`, so the `except` handler (lines 68-70) returns
`(None, None)` with only the raw file written. -/
def createQrCode (drawFails : Bool) (url fn ts : String) : GenResult :=
  match createEnhancedQrDisplay drawFails url ts with
  | none =>
      { encParams := qrParams, encFit := makeFit, display := none,
        retFilename := none, writes := [fn] }
  | some canvas =>
      { encParams := qrParams, encFit := makeFit, display := some canvas,
        retFilename := some fn, writes := [fn, "enhanced_" ++ fn] }

/-- The `self.urls` mapping set in `__init__` (lines 30-34). -/
structure Urls where
  loc : String
  vercel : String
  custom : String
deriving DecidableEq, Repr

/-- The default URLs from `__init__`: local, vercel, and an empty custom entry. -/
def defaultUrls : Urls :=
  { loc := "http://localhost:3000",
    vercel := "https://your-app-name.vercel.app",
    custom := "" }

/-- The dispatch at the top of `generate_for_deployment` (lines 198-209): the
three enumerated names map to a (url, filename) pair, `custom` requires a truthy
`custom_url`, and anything else falls to the error branch returning `None`. -/
def resolveDeployment (urls : Urls) (deploymentType : String)
    (customUrl : Option String) : Option (String × String) :=
  if deploymentType == "local" then some (urls.loc, "qr_local.png")
  else if deploymentType == "vercel" then some (urls.vercel, "qr_vercel.png")
  else if deploymentType == "custom" && pyTruthy customUrl then
    some (customUrl.getD "", "qr_custom.png")
  else none

/-- `generate_for_deployment` (lines 194-242): resolve, then generate; on the
error branch nothing is generated and `None` is returned; otherwise the result
filename is returned when `qr_display` is not `None`. The second component is
the list of files written. -/
def generateForDeployment (drawFails : Bool) (urls : Urls)
    (deploymentType : String) (customUrl : Option String) (ts : String) :
    Option String × List String :=
  match resolveDeployment urls deploymentType customUrl with
  | none => (none, [])
  | some (url, fn) =>
      let r := createQrCode drawFails url fn ts
      match r.display with
      | some _ => (r.retFilename, r.writes)
      | none => (none, r.writes)

/-- The `generator.urls[args.type] = args.url` update in `main` (line 265),
for the argparse choices local/vercel/custom. -/
def setUrl (urls : Urls) (name u : String) : Urls :=
  if name == "local" then { urls with loc := u }
  else if name == "vercel" then { urls with vercel := u }
  else if name == "custom" then { urls with custom := u }
  else urls

/-- The `main` dispatch on `args.url` (lines 260-268): with a truthy override
URL and type `custom`, generate ad hoc from it; with a truthy override and a
non-custom type, store it into the mapping first; otherwise generate from the
stored mapping. Returns the final mapping and the generation outcome. -/
def mainDispatch (drawFails : Bool) (urls0 : Urls) (argType : String)
    (argUrl : Option String) (ts : String) :
    Urls × (Option String × List String) :=
  if pyTruthy argUrl then
    if argType == "custom" then
      (urls0, generateForDeployment drawFails urls0 "custom" argUrl ts)
    else
      let urls1 := setUrl urls0 argType (argUrl.getD "")
      (urls1, generateForDeployment drawFails urls1 argType none ts)
  else
    (urls0, generateForDeployment drawFails urls0 argType none ts)

/-- The spec-level "mapped URL" of an enumerated target: what the code consults
for each name (the stored entry for local/vercel, the supplied override for
custom, where "no URL supplied" reads as empty). -/
def configuredUrl (urls : Urls) (customUrl : Option String) :
    String → String
  | "local" => urls.loc
  | "vercel" => urls.vercel
  | "custom" => customUrl.getD ""
  | _ => ""

/-- Per-target batch outcome. -/
inductive Outcome
  | ok (path : String)
  | failed
deriving DecidableEq, Repr

/-- Outcome of one target inside the spec's batch mode: validate its URL;
on success the artifact is named from the target, otherwise the target fails. -/
def batchOutcome (p : String × String) : String × Outcome :=
  (p.1, if validate p.2 then Outcome.ok ("qr_" ++ p.1 ++ ".png") else Outcome.failed)

/-- Modelled from the spec: the batch mode (`generateAll`) described by the
spec has no implementation in the source. Per the spec it iterates every
enumerated target except `custom`, validates each target's URL, derives the
artifact name `qr_<target>.png` on success, and aggregates per-target outcomes
without letting one target's failure abort the others. -/
def generateAll (cfg : List (String × String)) : List (String × Outcome) :=
  (cfg.filter fun p => p.1 != "custom").map batchOutcome

lemma generateAll_failed_count (cfg : List (String × String)) :
    ((generateAll cfg).filter fun q => q.2 == Outcome.failed).length
      = (cfg.filter fun p => p.1 != "custom" && !(validate p.2)).length := by
  induction cfg with
  | nil => rfl
  | cons p l ih =>
      by_cases hc : p.1 = "custom"
      · simpa [generateAll, List.filter_cons, hc] using ih
      · by_cases hv : validate p.2
        · simpa [generateAll, List.filter_cons, hc, hv, batchOutcome] using ih
        · simpa [generateAll, List.filter_cons, hc, hv, batchOutcome] using ih

end ARQr

namespace ARQr

/-- C1: the payload validator (modelled from the spec) returns true iff the
trimmed string is non-empty and begins with `http://` or `https://`; in
particular every string whose trimmed form starts with neither prefix (the
empty string included) is rejected. -/
theorem validate_spec (s : String) :
    (validate s = true ↔
      (pyStrip s ≠ "" ∧
        (pyStartswith (pyStrip s) "http://" = true ∨
         pyStartswith (pyStrip s) "https://" = true))) ∧
    (pyStartswith (pyStrip s) "http://" = false →
      pyStartswith (pyStrip s) "https://" = false →
      validate s = false) := by
  constructor
  · simp [validate]
  · intro h1 h2
    simp [validate, h1, h2]

theorem validate_spec_witness :
    validate "ftp://x" = false ∧ validate "" = false ∧
    validate "https://example.org" = true := by
  refine ⟨(validate_spec "ftp://x").2 (by decide) (by decide),
          (validate_spec "").2 (by decide) (by decide),
          (validate_spec "https://example.org").1.2 ⟨by decide, Or.inr (by decide)⟩⟩

/-- C2: with the reachable configuration (local and vercel URLs non-empty),
resolution of a name outside the enumerated set fails and generates nothing;
an enumerated name whose mapped URL is empty (for `custom`, no URL supplied)
fails and generates nothing; otherwise the mapped URL is returned together with
the target-derived filename. -/
theorem resolve_deployment_spec (drawFails : Bool) (urls : Urls) (dt : String)
    (cu : Option String) (ts : String)
    (hl : urls.loc ≠ "") (hv : urls.vercel ≠ "") :
    (dt ≠ "local" → dt ≠ "vercel" → dt ≠ "custom" →
      resolveDeployment urls dt cu = none ∧
      generateForDeployment drawFails urls dt cu ts = (none, [])) ∧
    ((dt = "local" ∨ dt = "vercel" ∨ dt = "custom") →
      configuredUrl urls cu dt = "" →
      resolveDeployment urls dt cu = none ∧
      generateForDeployment drawFails urls dt cu ts = (none, [])) ∧
    ((dt = "local" ∨ dt = "vercel" ∨ dt = "custom") →
      configuredUrl urls cu dt ≠ "" →
      resolveDeployment urls dt cu
        = some (configuredUrl urls cu dt, "qr_" ++ dt ++ ".png")) := by
  refine ⟨?_, ?_, ?_⟩
  · intro h1 h2 h3
    have : resolveDeployment urls dt cu = none := by
      simp [resolveDeployment, h1, h2, h3]
    exact ⟨this, by simp [generateForDeployment, this]⟩
  · rintro (rfl | rfl | rfl) hempty
    · exact absurd hempty hl
    · exact absurd hempty hv
    · have : resolveDeployment urls "custom" cu = none := by
        cases cu with
        | none => simp [resolveDeployment, pyTruthy]
        | some u =>
            simp [configuredUrl] at hempty
            simp [resolveDeployment, pyTruthy, hempty]
      exact ⟨this, by simp [generateForDeployment, this]⟩
  · rintro (rfl | rfl | rfl) hne
    · simp [resolveDeployment, configuredUrl]
    · simp [resolveDeployment, configuredUrl]
    · cases cu with
      | none => exact absurd rfl hne
      | some u =>
          simp [configuredUrl] at hne
          simp [resolveDeployment, pyTruthy, hne, configuredUrl]

theorem resolve_deployment_spec_witness :
    generateForDeployment false defaultUrls "custom" none "" = (none, []) ∧
    generateForDeployment false defaultUrls "staging" none "" = (none, []) ∧
    resolveDeployment defaultUrls "local" none
      = some (defaultUrls.loc, "qr_" ++ "local" ++ ".png") := by
  have T := resolve_deployment_spec false defaultUrls "custom" none ""
    (by decide) (by decide)
  have T2 := resolve_deployment_spec false defaultUrls "staging" none ""
    (by decide) (by decide)
  have T3 := resolve_deployment_spec false defaultUrls "local" none ""
    (by decide) (by decide)
  exact ⟨(T.2.1 (Or.inr (Or.inr rfl)) (by decide)).2,
         (T2.1 (by decide) (by decide) (by decide)).2,
         T3.2.2 (Or.inl rfl) (by decide)⟩

/-- C3: batch generation (modelled from the spec) over a configuration in which
exactly one non-custom target fails validation reports exactly one failure, and
every valid non-custom target still receives its artifact: one target's failure
blocks no other target. -/
theorem batch_isolates_failure (cfg : List (String × String))
    (h : (cfg.filter fun p => p.1 != "custom" && !(validate p.2)).length = 1) :
    ((generateAll cfg).filter fun q => q.2 == Outcome.failed).length = 1 ∧
    ∀ p ∈ cfg, p.1 ≠ "custom" → validate p.2 = true →
      (p.1, Outcome.ok ("qr_" ++ p.1 ++ ".png")) ∈ generateAll cfg := by
  refine ⟨(generateAll_failed_count cfg).trans h, ?_⟩
  intro p hp hc hval
  have hmem : p ∈ cfg.filter fun q => q.1 != "custom" :=
    List.mem_filter.2 ⟨hp, by simp [hc]⟩
  have : batchOutcome p ∈ generateAll cfg := List.mem_map_of_mem batchOutcome hmem
  simpa [batchOutcome, hval] using this

theorem batch_isolates_failure_witness :
    ((generateAll [("local", "http://localhost:3000"), ("vercel", ""),
        ("custom", "")]).filter fun q => q.2 == Outcome.failed).length = 1 ∧
    ("local", Outcome.ok ("qr_" ++ "local" ++ ".png")) ∈
      generateAll [("local", "http://localhost:3000"), ("vercel", ""),
        ("custom", "")] := by
  have T := batch_isolates_failure
    [("local", "http://localhost:3000"), ("vercel", ""), ("custom", "")]
    (by decide)
  exact ⟨T.1, T.2 ("local", "http://localhost:3000") (by decide) (by decide)
    (by decide)⟩

/-- C4: every generation call hands the encoder an error-correction level that
is M or H — the level of the source variant present (the presentation profile)
is H, the spec's profile map sends lightweight to M and presentation to H —
and requests automatic sizing (`fit=True`) instead of a fixed symbol version. -/
theorem encoder_invocation_spec (drawFails : Bool) (url fn ts : String) :
    ((createQrCode drawFails url fn ts).encParams.errorCorrection = ECLevel.M ∨
     (createQrCode drawFails url fn ts).encParams.errorCorrection = ECLevel.H) ∧
    (createQrCode drawFails url fn ts).encParams.errorCorrection
      = profileECLevel Profile.presentation ∧
    (createQrCode drawFails url fn ts).encFit = true ∧
    (∀ pr : Profile,
      profileECLevel pr = ECLevel.M ∨ profileECLevel pr = ECLevel.H) := by
  refine ⟨?_, ?_, ?_, ?_⟩
  · cases drawFails <;>
      simp [createQrCode, createEnhancedQrDisplay, qrParams]
  · cases drawFails <;>
      simp [createQrCode, createEnhancedQrDisplay, qrParams, profileECLevel]
  · cases drawFails <;>
      simp [createQrCode, createEnhancedQrDisplay, makeFit]
  · intro pr
    cases pr
    · exact Or.inl rfl
    · exact Or.inr rfl

/-- C5: when a drawing call inside composition fails, the failure is caught:
composition returns null, `create_qr_code` reports the null pair to its caller,
and no enhanced composite file is among the files written for the request. -/
theorem composition_failure_contained (url fn ts : String) :
    createEnhancedQrDisplay true url ts = none ∧
    (createQrCode true url fn ts).display = none ∧
    (createQrCode true url fn ts).retFilename = none ∧
    ("enhanced_" ++ fn) ∉ (createQrCode true url fn ts).writes := by
  refine ⟨rfl, rfl, rfl, ?_⟩
  have hw : (createQrCode true url fn ts).writes = [fn] := rfl
  rw [hw]
  intro hmem
  have heq : "enhanced_" ++ fn = fn := by simpa using hmem
  have := congrArg String.length heq
  rw [String.length_append] at this
  have h9 : ("enhanced_" : String).length = 9 := by decide
  rw [h9] at this
  omega

/-- C6: a URL of length at most 50 is displayed unmodified; a longer URL is
displayed as its first 50 characters followed by the `...` marker, making the
displayed length the constant 53; the display form is drawn on the composite. -/
theorem url_display_truncation (url ts : String) :
    (url.length ≤ 50 → urlDisplay url = url) ∧
    (50 < url.length →
      urlDisplay url = (⟨url.data.take 50⟩ : String) ++ "..." ∧
      (urlDisplay url).length = 53) ∧
    (⟨"URL: " ++ urlDisplay url, 50, 560⟩ : TextDraw)
      ∈ ((createEnhancedQrDisplay false url ts).getD []) := by
  refine ⟨?_, ?_, ?_⟩
  · intro h
    simp [urlDisplay, Nat.not_lt.2 h]
  · intro h
    refine ⟨by simp [urlDisplay, h], ?_⟩
    have hlen : url.length = url.data.length := rfl
    simp only [urlDisplay, if_pos h, String.length_append]
    have h1 : (⟨url.data.take 50⟩ : String).length = 50 := by
      show (url.data.take 50).length = 50
      rw [List.length_take]
      omega
    rw [h1]
    decide
  · simp [createEnhancedQrDisplay]

theorem url_display_truncation_witness :
    urlDisplay "http://a" = "http://a" ∧
    (urlDisplay
      "https://example.org/training/modules/advanced/cardiothoracic/01").length
      = 53 := by
  refine ⟨(url_display_truncation "http://a" "").1 (by decide), ?_⟩
  exact ((url_display_truncation
    "https://example.org/training/modules/advanced/cardiothoracic/01" "").2.1
    (by decide)).2

/-- C7: a truthy override URL with a non-custom target replaces exactly that
target's stored URL (the other entries keep their values) and generation for it
resolves to the override; with the custom target the stored mapping is left
unchanged and an ad hoc target is resolved from the override URL. -/
theorem override_url_semantics (drawFails : Bool) (urls : Urls) (u ts : String)
    (hu : u ≠ "") :
    ((mainDispatch drawFails urls "local" (some u) ts).1.loc = u ∧
     (mainDispatch drawFails urls "local" (some u) ts).1.vercel = urls.vercel ∧
     (mainDispatch drawFails urls "local" (some u) ts).1.custom = urls.custom ∧
     resolveDeployment (mainDispatch drawFails urls "local" (some u) ts).1
       "local" none = some (u, "qr_local.png")) ∧
    ((mainDispatch drawFails urls "vercel" (some u) ts).1.vercel = u ∧
     (mainDispatch drawFails urls "vercel" (some u) ts).1.loc = urls.loc ∧
     (mainDispatch drawFails urls "vercel" (some u) ts).1.custom = urls.custom ∧
     resolveDeployment (mainDispatch drawFails urls "vercel" (some u) ts).1
       "vercel" none = some (u, "qr_vercel.png")) ∧
    ((mainDispatch drawFails urls "custom" (some u) ts).1 = urls ∧
     resolveDeployment urls "custom" (some u) = some (u, "qr_custom.png")) := by
  have htruthy : pyTruthy (some u) = true := by simp [pyTruthy, hu]
  refine ⟨⟨?_, ?_, ?_, ?_⟩, ⟨?_, ?_, ?_, ?_⟩, ⟨?_, ?_⟩⟩ <;>
    simp [mainDispatch, htruthy, setUrl, resolveDeployment, pyTruthy, hu]

theorem override_url_semantics_witness :
    (mainDispatch false defaultUrls "vercel"
      (some "https://example.org/training") "").1.vercel
      = "https://example.org/training" ∧
    (mainDispatch false defaultUrls "vercel"
      (some "https://example.org/training") "").1.loc = defaultUrls.loc ∧
    resolveDeployment defaultUrls "custom" (some "https://example.org/training")
      = some ("https://example.org/training", "qr_custom.png") := by
  have T := override_url_semantics false defaultUrls "https://example.org/training"
    "" (by decide)
  exact ⟨T.2.1.1, T.2.1.2.1, T.2.2.2⟩

/-- C8: whenever resolution succeeds, the output filename is exactly
`qr_<target>.png`, determined by the target name alone, and a successful
generation writes the raw file and the composite under the same name with the
`enhanced_` prefix. -/
theorem output_filenames_deterministic (urls : Urls) (dt : String)
    (cu : Option String) (url fn ts : String)
    (h : resolveDeployment urls dt cu = some (url, fn)) :
    fn = "qr_" ++ dt ++ ".png" ∧
    (createQrCode false url fn ts).writes = [fn, "enhanced_" ++ fn] := by
  refine ⟨?_, rfl⟩
  by_cases h1 : dt = "local"
  · subst h1
    simp [resolveDeployment] at h
    rw [← h.2]
    decide
  · by_cases h2 : dt = "vercel"
    · subst h2
      simp [resolveDeployment] at h
      rw [← h.2]
      decide
    · by_cases h3 : dt = "custom"
      · subst h3
        by_cases h4 : pyTruthy cu = true
        · simp [resolveDeployment, h4] at h
          rw [← h.2]
          decide
        · rw [Bool.not_eq_true] at h4
          simp [resolveDeployment, h4] at h
      · simp [resolveDeployment, h1, h2, h3] at h

theorem output_filenames_deterministic_witness :
    ("qr_vercel.png" : String) = "qr_" ++ "vercel" ++ ".png" ∧
    (createQrCode false defaultUrls.vercel "qr_vercel.png" "").writes
      = ["qr_vercel.png", "enhanced_" ++ "qr_vercel.png"] := by
  exact output_filenames_deterministic defaultUrls "vercel" none
    defaultUrls.vercel "qr_vercel.png" "" (by decide)

/-- C9: the instruction renderer draws exactly the non-blank entries whose
index satisfies `600 + 22*i < 880` (indices 0 through 12); every entry from
index 13 onward is never drawn, and in particular no drawn line begins with
🎓, ⚡ or 🌐 — the whole footer-highlight tier is cut off. -/
theorem instruction_overflow_cutoff :
    instructionDraws.map TextDraw.text =
      ["📱 MOBILE ACCESS INSTRUCTIONS:",
       "1. Open your phone camera or Google Lens",
       "2. Point camera at this QR code",
       "3. Tap the notification/link that appears",
       "4. Click \x27START SURGERY\x27 button",
       "5. Experience immersive AR surgery training!",
       "🏥 FEATURES INCLUDED:",
       "• Real-time surgery step progression",
       "• Patient vitals monitoring simulation",
       "• Surgical instrument identification"] ∧
    (∀ p ∈ instructions.enum, p.2 ≠ "" →
      ((600 + p.1 * 22 < 880 →
          (⟨p.2, 30, (600 + p.1 * 22 : Nat)⟩ : TextDraw) ∈ instructionDraws) ∧
       (880 ≤ 600 + p.1 * 22 →
          ∀ d ∈ instructionDraws, d.text ≠ p.2))) ∧
    (∀ p ∈ instructions.enum, 13 ≤ p.1 →
      ∀ d ∈ instructionDraws, d.text ≠ p.2) ∧
    (∀ d ∈ instructionDraws,
      pyStartswith d.text "🎓" = false ∧
      pyStartswith d.text "⚡" = false ∧
      pyStartswith d.text "🌐" = false) := by
  decide

theorem instruction_overflow_cutoff_witness :
    (⟨"📱 MOBILE ACCESS INSTRUCTIONS:", 30, 600⟩ : TextDraw)
      ∈ instructionDraws ∧
    ∀ d ∈ instructionDraws,
      d.text ≠ "🎓 Perfect for medical students & residents" := by
  refine ⟨?_, ?_⟩
  · have h := (instruction_overflow_cutoff.2.1
      (0, "📱 MOBILE ACCESS INSTRUCTIONS:") (by decide) (by decide)).1
      (by decide)
    simpa using h
  · exact instruction_overflow_cutoff.2.2.1
      (17, "🎓 Perfect for medical students & residents") (by decide) (by decide)

/-- C10: when composition fails, `create_qr_code` returns the null pair and the
caller reports total failure, yet the raw QR file is the one file already
written — written before the composite write that raised — so the generation
step is not atomic. -/
theorem raw_artifact_persists_on_failure (url fn ts : String) :
    (createQrCode true url fn ts).retFilename = none ∧
    (createQrCode true url fn ts).display = none ∧
    (createQrCode true url fn ts).writes = [fn] ∧
    fn ∈ (createQrCode true url fn ts).writes ∧
    generateForDeployment true defaultUrls "local" none ts
      = (none, ["qr_local.png"]) := by
  refine ⟨rfl, rfl, rfl, ?_, ?_⟩
  · show fn ∈ [fn]
    exact List.mem_singleton.2 rfl
  · rfl

end ARQr
